import Mathlib

/-!
Verification of wldash widget construction and the UPower battery gauge.

Shallow embedding of `src/config.rs` (the `Widget` spec enum and its
`construct` method) and `src/widgets/battery.rs` (the `UpowerBattery`
gauge).  Rust `f32`/`f64` values are modelled by `ℚ` (every numeric
literal occurring in the embedded code — 10.0, 100.0, 0.5, 1.0 — is
exactly representable, so the rational model agrees with the floating
point code on all values the theorems mention).  D-Bus reads are
modelled by an explicit environment: each property read either fails at
the transport (`sendFail`, the Rust `get_upower_property` returning
`Err`), yields a reply without the expected variant (`noValue`, `get1`
returning `None`), or yields a value.
-/

/-- RGBA color, mirroring `Color::new(r, g, b, a)` from `src/color.rs`
(only the constructor is needed by the embedded code). -/
structure Color where
  r : ℚ
  g : ℚ
  b : ℚ
  a : ℚ
deriving Repr, DecidableEq

def Color.new (r g b a : ℚ) : Color := ⟨r, g, b, a⟩

/-- Rust `enum UpowerBatteryState` of `src/widgets/battery.rs`. -/
inductive UpowerBatteryState where
  | Charging
  | Discharging
  | Empty
  | Full
  | NotCharging
  | Unknown
deriving Repr, DecidableEq

/-- The state-code table that appears verbatim twice in
`src/widgets/battery.rs`: in `UpowerBattery::from_device` (lines
127-135) and in `UpowerBattery::wait` (lines 192-200).  The Rust `match`
on the `u32` code is written here as an `if` chain over `Nat`. -/
def stateOfCode (c : Nat) : UpowerBatteryState :=
  if c = 1 then .Charging
  else if c = 2 then .Discharging
  else if c = 3 then .Empty
  else if c = 4 then .Full
  else if c = 5 then .NotCharging
  else if c = 6 then .Discharging
  else .Unknown

/-- Outcome of one `get_upower_property(con, path, prop).get1()` round
trip: `sendFail` models `get_upower_property` returning `Err` (message
construction or `send_with_reply_and_block` failing), `noValue` models
`get1` returning `None`, `value v` a successful read. -/
inductive PropRead (α : Type) where
  | sendFail
  | noValue
  | value (v : α)
deriving Repr, DecidableEq

/-- The D-Bus environment observed by `UpowerBattery::from_device`:
whether `Connection::get_private(BusType::System)` succeeds, whether
`add_match` succeeds, the three property reads (`Type`, `Percentage`,
`State`), and the fd list returned by `watch_fds()`. -/
structure DbusEnv where
  bus_ok : Bool
  add_match_ok : Bool
  type_read : PropRead Nat
  percentage_read : PropRead ℚ
  state_read : PropRead Nat
  watch_fds : List Int
deriving Repr, DecidableEq

/-- Rust `::std::io::Error::new(ErrorKind::Other, msg)` — only the message is
observable in the embedded code. -/
structure IoError where
  message : String
deriving Repr, DecidableEq

/-- Rust `struct UpowerBattery` of `src/widgets/battery.rs`.  The
`sender: Sender<Cmd>` and `dirty: Arc<Mutex<bool>>` fields are shared
channels, modelled as explicit components of `WaitState` below; the
`con: DbusConnection` handle is modelled by the environment; `watch`
keeps only its fd (the only part the code reads). -/
structure UpowerBattery where
  device_path : String
  state : UpowerBatteryState
  capacity : ℚ
  watch_fd : Int
deriving Repr, DecidableEq

/-- Embeds `UpowerBattery::from_device` (src/widgets/battery.rs lines 71-161):
opens the system bus, adds the `PropertiesChanged` match rule, reads
`Type` and rejects devices whose class is not 2 (battery), reads
`Percentage` and `State`, requires exactly one watch fd, and builds the
gauge.  Every failure is returned as `Err`, never a panic. -/
def UpowerBattery.from_device (env : DbusEnv) (device : String) :
    Except IoError UpowerBattery :=
  if !env.bus_ok then .error ⟨"unable to open dbus"⟩
  else
    let device_path := "/org/freedesktop/UPower/devices/battery_" ++ device
    if !env.add_match_ok then
      .error ⟨"unable to add match rule to dbus connection"⟩
    else match env.type_read with
    | .sendFail => .error ⟨"could not send dbus message"⟩
    | .noValue => .error ⟨"no such upower device"⟩
    | .value upower_type =>
      if upower_type ≠ 2 then .error ⟨"UPower device is not a battery."⟩
      else match env.percentage_read with
      | .sendFail => .error ⟨"could not send dbus message"⟩
      | .noValue => .error ⟨"no such upower device"⟩
      | .value capacity =>
        match env.state_read with
        | .sendFail => .error ⟨"could not send dbus message"⟩
        | .noValue => .error ⟨"no such upower device"⟩
        | .value code =>
          match env.watch_fds with
          | [fd] => .ok ⟨device_path, stateOfCode code, capacity, fd⟩
          | _ => .error ⟨"expected 1 watch fd from dbus"⟩

/-- Embeds `UpowerBattery::new` (src/widgets/battery.rs lines 163-172): probes
device `"BAT0"` via `from_device`.  The `BarWidget::new` wrapper
(src/widgets/bar_widget.rs, not part of the provided sources) passes the
shared dirty flag to the closure and propagates the closure's `Err`
through `?`; modelled from the spec: any probe failure yields no widget,
success yields the gauge. -/
def UpowerBattery.new (env : DbusEnv) : Except IoError UpowerBattery :=
  UpowerBattery.from_device env "BAT0"

/-- Embeds `UpowerBattery::value` (src/widgets/battery.rs lines 213-215):
`(self.capacity as f32) / 100.0`. -/
def UpowerBattery.value (b : UpowerBattery) : ℚ := b.capacity / 100

/-- Embeds `UpowerBattery::color` (src/widgets/battery.rs lines 216-232). -/
def UpowerBattery.color (b : UpowerBattery) : Color :=
  match b.state with
  | .Discharging | .Unknown =>
    if b.capacity > 10 then Color.new 1 1 1 1
    else Color.new 1 (1/2) 0 1
  | .Charging | .Full => Color.new (1/2) 1 (1/2) 1
  | .NotCharging | .Empty => Color.new 1 (1/2) (1/2) 1

/-- Embeds `UpowerBattery::name` (src/widgets/battery.rs lines 210-212). -/
def UpowerBattery.name (_ : UpowerBattery) : String := "battery"

/-- Rust `enum Cmd` of `src/cmd.rs` — only `Cmd::Draw` is used by the
embedded code. -/
inductive Cmd where
  | Draw
deriving Repr, DecidableEq

/-- Rust `nix::poll::PollFlags` — only `POLLIN` is used. -/
inductive PollFlag where
  | POLLIN
deriving Repr, DecidableEq

/-- One `PollFd::new(fd, flags)` entry of `WaitContext::fds`. -/
structure PollFdEntry where
  fd : Int
  flags : PollFlag
deriving Repr, DecidableEq

/-- One pending `PropertiesChanged` item yielded by
`con.watch_handle(fd, Readable)` inside `UpowerBattery::wait`, together
with the outcomes of the two property reads the loop body performs for
it. -/
structure WaitNotification where
  percentage_read : PropRead ℚ
  state_read : PropRead Nat
deriving Repr, DecidableEq

/-- Both reads of a notification succeeded (the loop body's four
`.unwrap()` calls do not panic). -/
def WaitNotification.readsOk : WaitNotification → Bool
  | ⟨.value _, .value _⟩ => true
  | _ => false

/-- The state threaded through a call to `UpowerBattery::wait`: the
gauge itself (`&mut self`), the shared dirty flag
(`*self.dirty.lock().unwrap()`), the commands sent so far on
`self.sender`, and the `ctx.fds` vector of the `WaitContext`. -/
structure WaitState where
  battery : UpowerBattery
  dirty : Bool
  commands : List Cmd
  fds : List PollFdEntry
deriving Repr, DecidableEq

/-- The body of the drain loop in `UpowerBattery::wait`
(src/widgets/battery.rs lines 182-204): re-read `Percentage` and
`State`, store both, set the shared dirty flag, send `Cmd::Draw`.  The
Rust code `.unwrap()`s each read; a failed read panics the process,
modelled as `none`. -/
def UpowerBattery.waitStep (s : WaitState) (n : WaitNotification) :
    Option WaitState :=
  match n.percentage_read with
  | .value capacity =>
    match n.state_read with
    | .value code =>
      some { s with
        battery := { s.battery with state := stateOfCode code, capacity },
        dirty := true,
        commands := s.commands ++ [Cmd.Draw] }
    | _ => none
  | _ => none

/-- Embeds `UpowerBattery::wait` (src/widgets/battery.rs lines 176-209): drain
every pending notification through the loop body, then push
`PollFd::new(self.watch.fd(), PollFlags::POLLIN)` onto `ctx.fds`.
`none` models a panic of one of the loop body's `.unwrap()` calls. -/
def UpowerBattery.wait (notifs : List WaitNotification) (s : WaitState) :
    Option WaitState :=
  match notifs with
  | [] => some { s with fds := s.fds ++ [⟨s.battery.watch_fd, .POLLIN⟩] }
  | n :: ns =>
    match UpowerBattery.waitStep s n with
    | some s1 => UpowerBattery.wait ns s1
    | none => none

/-- Embeds `UpowerBattery::inc` (src/widgets/battery.rs line 233): empty body —
no field of the gauge, the dirty flag, the command channel or the wait
context is touched. -/
def UpowerBattery.inc (s : WaitState) (_ : ℚ) : WaitState := s

/-- Embeds `UpowerBattery::set` (src/widgets/battery.rs line 234): empty body. -/
def UpowerBattery.set (s : WaitState) (_ : ℚ) : WaitState := s

/-- Embeds `UpowerBattery::toggle` (src/widgets/battery.rs line 235): empty
body. -/
def UpowerBattery.toggle (s : WaitState) : WaitState := s

/-- Rust `enum Widget` of `src/config.rs` (lines 10-64), the declarative
spec tree.  The `PulseAudio` and `AlsaSound` variants are behind the
`pulseaudio-widget` / `alsa-widget` cargo features and are not part of
the default build, so they are not embedded. -/
inductive Widget where
  | Margin (margins : Nat × Nat × Nat × Nat) (widget : Widget)
  | Fixed (width : Nat) (height : Nat) (widget : Widget)
  | HorizontalLayout (widgets : List Widget)
  | VerticalLayout (widgets : List Widget)
  | Clock (font_size : ℚ)
  | Date (font_size : ℚ)
  | Calendar (font_size : ℚ) (sections : Nat)
  | Launcher (font_size : ℚ) (length : Nat)
      (app_opener term_opener url_opener : String)
  | Battery (font_size : ℚ) (length : Nat)
  | Backlight (device : String) (font_size : ℚ) (length : Nat)
deriving Repr

/-- The constructed runtime tree (`Box<dyn widget::Widget + Send>`).
Each constructor records exactly the arguments `Widget::construct`
passes to the corresponding runtime constructor in `src/config.rs`;
for `Battery` that is the probed `UpowerBattery` gauge, for `Backlight`
the resolved device name handed to `Backlight::new`, for `Launcher` the
opener commands after the empty-`url_opener` default is applied. -/
inductive RuntimeWidget where
  | Margin (margins : Nat × Nat × Nat × Nat) (child : RuntimeWidget)
  | Fixed (size : Nat × Nat) (child : RuntimeWidget)
  | HorizontalLayout (children : List RuntimeWidget)
  | VerticalLayout (children : List RuntimeWidget)
  | Clock (time : Nat) (font_size : ℚ)
  | Date (time : Nat) (font_size : ℚ)
  | Calendar (time : Nat) (font_size : ℚ) (sections : Nat)
  | Launcher (font_size : ℚ) (length : Nat)
      (app_opener term_opener url_opener : String)
  | Battery (gauge : UpowerBattery) (font_size : ℚ) (length : Nat)
  | Backlight (device : String) (font_size : ℚ) (length : Nat)
deriving Repr

/-- The external world observed during construction: the D-Bus
environment probed by `UpowerBattery::new`, and whether
`Backlight::new(device, ..)` (src/widgets/backlight.rs, not part of the
provided sources) succeeds for a given resolved device name. -/
structure ConstructEnv where
  dbus : DbusEnv
  backlight_ok : String → Bool

mutual

/-- Embeds `Widget::construct` (src/config.rs lines 67-161).  `Margin` and
`Fixed` construct their child and return `None` when it does;
`HorizontalLayout`/`VerticalLayout` construct each child and keep the
successes (`.map(construct).filter(is_some).map(unwrap)`, i.e.
`filterMap`, rendered here as the explicit recursion
`Widget.constructChildren`); `Launcher` substitutes `"xdg_open "` for an
empty `url_opener`; `Battery` and `Backlight` probe and map `Err` to
`None`; `Backlight` substitutes `"intel_backlight"` for an empty
device. -/
def Widget.construct (env : ConstructEnv) (time : Nat) :
    Widget → Option RuntimeWidget
  | .Margin margins widget =>
    match Widget.construct env time widget with
    | some w => some (.Margin margins w)
    | none => none
  | .Fixed width height widget =>
    match Widget.construct env time widget with
    | some w => some (.Fixed (width, height) w)
    | none => none
  | .HorizontalLayout widgets =>
    some (.HorizontalLayout (Widget.constructChildren env time widgets))
  | .VerticalLayout widgets =>
    some (.VerticalLayout (Widget.constructChildren env time widgets))
  | .Clock font_size => some (.Clock time font_size)
  | .Date font_size => some (.Date time font_size)
  | .Calendar font_size sections => some (.Calendar time font_size sections)
  | .Launcher font_size length app_opener term_opener url_opener =>
    some (.Launcher font_size length app_opener term_opener
      (if url_opener.isEmpty then "xdg_open " else url_opener))
  | .Battery font_size length =>
    match UpowerBattery.new env.dbus with
    | .ok w => some (.Battery w font_size length)
    | .error _ => none
  | .Backlight device font_size length =>
    let d := if device = "" then "intel_backlight" else device
    if env.backlight_ok d then some (.Backlight d font_size length)
    else none

/-- The layout-children pipeline of `Widget::construct`:
`widgets.into_iter().map(|x| x.construct(..)).filter(|x| x.is_some()).map(|x| x.unwrap()).collect()`. -/
def Widget.constructChildren (env : ConstructEnv) (time : Nat) :
    List Widget → List RuntimeWidget
  | [] => []
  | w :: ws =>
    match Widget.construct env time w with
    | some rw => rw :: Widget.constructChildren env time ws
    | none => Widget.constructChildren env time ws

end

/-- A D-Bus environment in which every probe step succeeds: device class
2 (battery), percentage 50, state code 1 (charging), one watch fd. -/
def envAllOk : DbusEnv := ⟨true, true, .value 2, .value 50, .value 1, [7]⟩

/-- A D-Bus environment in which opening the system bus fails. -/
def envNoBus : DbusEnv := ⟨false, true, .value 2, .value 50, .value 1, [7]⟩

/-- The gauge produced by a successful probe against `envAllOk`. -/
def batteryOk : UpowerBattery :=
  ⟨"/org/freedesktop/UPower/devices/battery_BAT0", .Charging, 50, 7⟩

/-- Construction environment: all probes succeed. -/
def cenvOk : ConstructEnv := ⟨envAllOk, fun _ => true⟩

/-- Construction environment: the battery probe fails (no bus). -/
def cenvNoBus : ConstructEnv := ⟨envNoBus, fun _ => true⟩

/-- A wait-state for the gauge probed from `envAllOk`, with the dirty
flag clear, no command sent, an empty `WaitContext`. -/
def waitState0 : WaitState := ⟨batteryOk, false, [], []⟩

example : UpowerBattery.from_device envAllOk "BAT0" = .ok batteryOk := rfl

/-- Fields of a successfully probed gauge: capacity is the `Percentage`
read, state is the mapped `State` read, the watch fd is the single
`watch_fds()` element, the device path is the formatted object path. -/
theorem from_device_ok_fields (env : DbusEnv) (d : String) (b : UpowerBattery)
    (h : UpowerBattery.from_device env d = .ok b) :
    env.percentage_read = .value b.capacity ∧
    (∃ c, env.state_read = .value c ∧ b.state = stateOfCode c) ∧
    env.watch_fds = [b.watch_fd] ∧
    b.device_path = "/org/freedesktop/UPower/devices/battery_" ++ d ∧
    env.bus_ok = true ∧ env.add_match_ok = true ∧
    env.type_read = .value 2 := by
  rcases env with ⟨bus, am, ty, pct, stt, fds⟩
  simp only [UpowerBattery.from_device] at h
  cases bus
  · simp at h
  · cases am
    · simp at h
    · cases ty with
      | sendFail => simp at h
      | noValue => simp at h
      | value v =>
        by_cases hv : v = 2
        · subst hv
          simp only [Bool.not_true, Bool.false_eq_true, if_false, ne_eq,
            not_true_eq_false, if_true] at h
          cases pct with
          | sendFail => simp at h
          | noValue => simp at h
          | value q =>
            cases stt with
            | sendFail => simp at h
            | noValue => simp at h
            | value c =>
              rcases fds with _ | ⟨f, _ | ⟨g, rest⟩⟩
              · simp at h
              · simp only [Except.ok.injEq] at h
                subst h
                exact ⟨rfl, ⟨c, rfl, rfl⟩, rfl, rfl, rfl, rfl, rfl⟩
              · simp at h
        · simp [hv] at h

/-- The layout-children pipeline is `List.filterMap` of child
construction: successes survive in order, failures are dropped. -/
theorem constructChildren_eq_filterMap (env : ConstructEnv) (t : Nat)
    (ws : List Widget) :
    Widget.constructChildren env t ws = ws.filterMap (Widget.construct env t) := by
  induction ws with
  | nil => rfl
  | cons w ws ih =>
    rw [Widget.constructChildren, List.filterMap_cons]
    cases Widget.construct env t w <;> simp [ih]

/-- Survivor count: dropping the failing children leaves the list length
minus the number of failures. -/
theorem filterMap_construct_length (env : ConstructEnv) (t : Nat)
    (ws : List Widget) :
    (ws.filterMap (Widget.construct env t)).length =
      ws.length - ws.countP (fun w => (Widget.construct env t w).isNone) := by
  induction ws with
  | nil => rfl
  | cons w ws ih =>
    have hle : ws.countP (fun w => (Widget.construct env t w).isNone) ≤ ws.length :=
      List.countP_le_length _
    rw [List.filterMap_cons, List.countP_cons]
    cases h : Widget.construct env t w <;> simp [h, ih] <;> omega

/-- C10: `inc`, `set` and `toggle` on the battery gauge are no-ops: the
gauge state, capacity, `value()`, `color()`, `name()`, the dirty flag
and the command channel are all unchanged by any call. -/
theorem battery_mutators_are_noops (s : WaitState) (x y : ℚ) :
    UpowerBattery.inc s x = s ∧
    UpowerBattery.set s y = s ∧
    UpowerBattery.toggle s = s ∧
    (UpowerBattery.inc s x).battery.state = s.battery.state ∧
    (UpowerBattery.inc s x).battery.capacity = s.battery.capacity ∧
    (UpowerBattery.inc s x).battery.value = s.battery.value ∧
    (UpowerBattery.set s y).battery.color = s.battery.color ∧
    (UpowerBattery.set s y).battery.name = s.battery.name ∧
    (UpowerBattery.toggle s).dirty = s.dirty ∧
    (UpowerBattery.toggle s).commands = s.commands :=
  ⟨rfl, rfl, rfl, rfl, rfl, rfl, rfl, rfl, rfl, rfl⟩

/-- C3: the battery color policy — white iff (Discharging or Unknown)
with capacity above 10, amber iff (Discharging or Unknown) with capacity
at most 10, green iff Charging or Full, pink iff NotCharging or Empty —
and `value()` is capacity over 100; in particular capacity 5 while
Discharging gives amber and value 0.05, and capacity 50 while Charging
gives green and value 0.50. -/
theorem battery_color_value_policy (b : UpowerBattery) :
    (b.color = Color.new 1 1 1 1 ↔
      ((b.state = .Discharging ∨ b.state = .Unknown) ∧ b.capacity > 10)) ∧
    (b.color = Color.new 1 (1/2) 0 1 ↔
      ((b.state = .Discharging ∨ b.state = .Unknown) ∧ b.capacity ≤ 10)) ∧
    (b.color = Color.new (1/2) 1 (1/2) 1 ↔
      (b.state = .Charging ∨ b.state = .Full)) ∧
    (b.color = Color.new 1 (1/2) (1/2) 1 ↔
      (b.state = .NotCharging ∨ b.state = .Empty)) ∧
    b.value = b.capacity / 100 ∧
    (b.state = .Discharging → b.capacity = 5 →
      b.color = Color.new 1 (1/2) 0 1 ∧ b.value = 5 / 100) ∧
    (b.state = .Charging → b.capacity = 50 →
      b.color = Color.new (1/2) 1 (1/2) 1 ∧ b.value = 50 / 100) := by
  obtain ⟨dp, st, cap, fd⟩ := b
  cases st <;> by_cases hcap : cap > 10 <;>
    simp_all [UpowerBattery.color, UpowerBattery.value, Color.new,
      Color.mk.injEq] <;>
    first
      | (norm_num; done)
      | (rw [if_neg (not_lt.mpr hcap)]; norm_num)

/-- C3 witness: a battery at 5 percent while discharging is amber with
value 0.05. -/
theorem battery_color_value_policy_witness :
    UpowerBattery.color ⟨"p", .Discharging, 5, 7⟩ = Color.new 1 (1/2) 0 1 ∧
    UpowerBattery.value ⟨"p", .Discharging, 5, 7⟩ = 5 / 100 :=
  (battery_color_value_policy ⟨"p", .Discharging, 5, 7⟩).2.2.2.2.2.1 rfl rfl

/-- C4: the UPower state-code table — 1 maps to Charging, 2 to
Discharging, 3 to Empty, 4 to Full, 5 to NotCharging, 6 (aliased) to
Discharging, anything else to Unknown; both the construction-time read
(`from_device`) and the refresh read (`wait`'s loop body) apply this
table, and the resulting state always lies in the six-value enum. -/
theorem upower_state_code_table :
    stateOfCode 1 = .Charging ∧
    stateOfCode 2 = .Discharging ∧
    stateOfCode 3 = .Empty ∧
    stateOfCode 4 = .Full ∧
    stateOfCode 5 = .NotCharging ∧
    stateOfCode 6 = .Discharging ∧
    (∀ c : Nat, c ≠ 1 → c ≠ 2 → c ≠ 3 → c ≠ 4 → c ≠ 5 → c ≠ 6 →
      stateOfCode c = .Unknown) ∧
    (∀ env d b, UpowerBattery.from_device env d = .ok b →
      ∀ c, env.state_read = .value c → b.state = stateOfCode c) ∧
    (∀ s n s1, UpowerBattery.waitStep s n = some s1 →
      ∀ c, n.state_read = .value c → s1.battery.state = stateOfCode c) ∧
    (∀ c, stateOfCode c = .Charging ∨ stateOfCode c = .Discharging ∨
      stateOfCode c = .Empty ∨ stateOfCode c = .Full ∨
      stateOfCode c = .NotCharging ∨ stateOfCode c = .Unknown) := by
  refine ⟨rfl, rfl, rfl, rfl, rfl, rfl, ?_, ?_, ?_, ?_⟩
  · intro c h1 h2 h3 h4 h5 h6
    simp [stateOfCode, h1, h2, h3, h4, h5, h6]
  · intro env d b h c hc
    obtain ⟨-, ⟨c2, hc2, hst⟩, -, -⟩ := from_device_ok_fields env d b h
    rw [hc] at hc2
    cases hc2
    exact hst
  · intro s n s1 h c hc
    obtain ⟨pr, sr⟩ := n
    have hsr : sr = .value c := hc
    subst hsr
    cases pr with
    | sendFail => simp [UpowerBattery.waitStep] at h
    | noValue => simp [UpowerBattery.waitStep] at h
    | value q =>
      simp only [UpowerBattery.waitStep, Option.some.injEq] at h
      subst h
      rfl
  · intro c
    unfold stateOfCode
    split_ifs <;> simp

/-- C4 witness: code 7 is outside the table and maps to Unknown. -/
theorem upower_state_code_table_witness :
    stateOfCode 7 = .Unknown :=
  upower_state_code_table.2.2.2.2.2.2.1 7 (by decide) (by decide) (by decide)
    (by decide) (by decide) (by decide)

/-- C1 counterexample: under an environment where the battery probe
fails (no system bus), a `Margin` and a `Fixed` node wrapping a
`Battery` child construct to `none` — the child's failure propagates,
the parent is not kept as an empty container. -/
theorem margin_fixed_propagate_failed_child :
    Widget.construct cenvNoBus 0 (.Margin (20, 20, 20, 20) (.Battery 24 600)) = none ∧
    Widget.construct cenvNoBus 0 (.Fixed 100 100 (.Battery 24 600)) = none :=
  ⟨rfl, rfl⟩

/-- C1 (amended): `HorizontalLayout` and `VerticalLayout` always
construct, silently dropping children that construct to `none` (a layout
with zero surviving children still constructs, as an empty container);
`Margin` and `Fixed`, by contrast, propagate a failed child upward as
`none`. -/
theorem container_construct_failure_policy (env : ConstructEnv) (t : Nat) :
    (∀ ws : List Widget, Widget.construct env t (.HorizontalLayout ws) =
      some (.HorizontalLayout (ws.filterMap (Widget.construct env t)))) ∧
    (∀ ws : List Widget, Widget.construct env t (.VerticalLayout ws) =
      some (.VerticalLayout (ws.filterMap (Widget.construct env t)))) ∧
    (∀ m (w : Widget), Widget.construct env t w = none →
      Widget.construct env t (.Margin m w) = none) ∧
    (∀ wd ht (w : Widget), Widget.construct env t w = none →
      Widget.construct env t (.Fixed wd ht w) = none) := by
  refine ⟨?_, ?_, ?_, ?_⟩
  · intro ws
    rw [Widget.construct, constructChildren_eq_filterMap]
  · intro ws
    rw [Widget.construct, constructChildren_eq_filterMap]
  · intro m w h
    rw [Widget.construct, h]
  · intro wd ht w h
    rw [Widget.construct, h]

/-- C1 witness: instantiating the amended policy — a failing `Battery`
child under `Margin` yields `none`, and under `HorizontalLayout` yields
an empty layout. -/
theorem container_construct_failure_policy_witness :
    Widget.construct cenvNoBus 0 (.Margin (20, 20, 20, 20) (.Battery 24 600)) = none ∧
    Widget.construct cenvNoBus 0 (.HorizontalLayout [.Battery 24 600]) =
      some (.HorizontalLayout ([(.Battery 24 600 : Widget)].filterMap
        (Widget.construct cenvNoBus 0))) :=
  ⟨(container_construct_failure_policy cenvNoBus 0).2.2.1 (20, 20, 20, 20)
      (.Battery 24 600) rfl,
    (container_construct_failure_policy cenvNoBus 0).1 [.Battery 24 600]⟩

/-- C5: a `HorizontalLayout`/`VerticalLayout` node always constructs,
its children are exactly the successful child constructions in original
order (`filterMap`), and when M of the N children fail exactly N - M
survive. -/
theorem layout_children_order_and_count (env : ConstructEnv) (t : Nat)
    (ws : List Widget) :
    Widget.construct env t (.HorizontalLayout ws) =
      some (.HorizontalLayout (ws.filterMap (Widget.construct env t))) ∧
    Widget.construct env t (.VerticalLayout ws) =
      some (.VerticalLayout (ws.filterMap (Widget.construct env t))) ∧
    (ws.filterMap (Widget.construct env t)).length =
      ws.length - ws.countP (fun w => (Widget.construct env t w).isNone) ∧
    ws.countP (fun w => (Widget.construct env t w).isNone) +
      (ws.filterMap (Widget.construct env t)).length = ws.length := by
  have hlen := filterMap_construct_length env t ws
  have hle : ws.countP (fun w => (Widget.construct env t w).isNone) ≤ ws.length :=
    List.countP_le_length _
  refine ⟨?_, ?_, hlen, by omega⟩
  · rw [Widget.construct, constructChildren_eq_filterMap]
  · rw [Widget.construct, constructChildren_eq_filterMap]

/-- The `Battery` branch of `Widget::construct` is exactly the
`Ok`-to-`Some`, `Err`-to-`None` mapping over the probe. -/
theorem construct_battery_eq (env : ConstructEnv) (t : Nat) (fs : ℚ) (len : Nat) :
    Widget.construct env t (.Battery fs len) =
      match UpowerBattery.new env.dbus with
      | .ok b => some (.Battery b fs len)
      | .error _ => none := rfl

/-- C7: battery gauge construction returns `Err` — and the `Battery`
spec node constructs to `None` — whenever the probe fails: the system
bus cannot be opened, the `Type`, `Percentage` or `State` property is
missing from the reply, or the device's `Type` is not 2 (battery).  A
probe failure is an ordinary `Err` value (the probe is a total
function), never a process abort, and the node constructs to `None`
exactly when the probe errors. -/
theorem battery_probe_failure_yields_no_widget (env : ConstructEnv) (t : Nat)
    (fs : ℚ) (len : Nat) :
    (Widget.construct env t (.Battery fs len) = none ↔
      ∃ e, UpowerBattery.new env.dbus = .error e) ∧
    (∀ b, UpowerBattery.new env.dbus = .ok b →
      Widget.construct env t (.Battery fs len) = some (.Battery b fs len)) ∧
    (env.dbus.bus_ok = false → Widget.construct env t (.Battery fs len) = none) ∧
    (env.dbus.type_read = .noValue → Widget.construct env t (.Battery fs len) = none) ∧
    (env.dbus.percentage_read = .noValue → Widget.construct env t (.Battery fs len) = none) ∧
    (env.dbus.state_read = .noValue → Widget.construct env t (.Battery fs len) = none) ∧
    (∀ ty, env.dbus.type_read = .value ty → ty ≠ 2 →
      Widget.construct env t (.Battery fs len) = none) := by
  have hnone : (∀ b, UpowerBattery.new env.dbus ≠ .ok b) →
      Widget.construct env t (.Battery fs len) = none := by
    intro h
    rw [construct_battery_eq]
    cases hk : UpowerBattery.new env.dbus
    · rfl
    · exact absurd hk (h _)
  refine ⟨?_, ?_, ?_, ?_, ?_, ?_, ?_⟩
  · rw [construct_battery_eq]
    cases hk : UpowerBattery.new env.dbus <;> simp
  · intro b h
    rw [construct_battery_eq, h]
  · intro h
    refine hnone fun b hb => ?_
    obtain ⟨-, -, -, -, hbus, -⟩ := from_device_ok_fields _ _ _ hb
    rw [h] at hbus
    exact Bool.false_ne_true hbus
  · intro h
    refine hnone fun b hb => ?_
    obtain ⟨-, -, -, -, -, -, hty⟩ := from_device_ok_fields _ _ _ hb
    rw [h] at hty
    exact PropRead.noConfusion hty
  · intro h
    refine hnone fun b hb => ?_
    obtain ⟨hpct, -⟩ := from_device_ok_fields _ _ _ hb
    rw [h] at hpct
    exact PropRead.noConfusion hpct
  · intro h
    refine hnone fun b hb => ?_
    obtain ⟨-, ⟨c, hc, -⟩, -⟩ := from_device_ok_fields _ _ _ hb
    rw [h] at hc
    exact PropRead.noConfusion hc
  · intro v h hv
    refine hnone fun b hb => ?_
    obtain ⟨-, -, -, -, -, -, hty⟩ := from_device_ok_fields _ _ _ hb
    rw [h] at hty
    exact hv (by injection hty)

/-- C7 witness: with no system bus the probe errors and the node
constructs to nothing. -/
theorem battery_probe_failure_yields_no_widget_witness :
    Widget.construct cenvNoBus 0 (.Battery 24 600) = none :=
  (battery_probe_failure_yields_no_widget cenvNoBus 0 24 600).2.2.1 rfl

/-- C8: `construct` replaces an empty backlight device string by the
platform default `"intel_backlight"` and an empty launcher `url_opener`
by the default opener command `"xdg_open "`; non-empty strings pass
through unchanged. -/
theorem construct_empty_string_defaults (env : ConstructEnv) (t : Nat)
    (fs : ℚ) (len : Nat) (app term url device : String) :
    Widget.construct env t (.Backlight "" fs len) =
      (if env.backlight_ok "intel_backlight" then
        some (.Backlight "intel_backlight" fs len) else none) ∧
    (device ≠ "" → Widget.construct env t (.Backlight device fs len) =
      (if env.backlight_ok device then
        some (.Backlight device fs len) else none)) ∧
    Widget.construct env t (.Launcher fs len app term "") =
      some (.Launcher fs len app term "xdg_open ") ∧
    (url ≠ "" → Widget.construct env t (.Launcher fs len app term url) =
      some (.Launcher fs len app term url)) := by
  refine ⟨?_, ?_, ?_, ?_⟩
  · rw [Widget.construct]
    simp
  · intro h
    rw [Widget.construct]
    simp [h]
  · rw [Widget.construct]
    rfl
  · intro h
    rw [Widget.construct]
    have hne : url.isEmpty = false := by
      cases hu : url.isEmpty
      · rfl
      · exact absurd ((String.isEmpty_iff _).mp hu) h
    simp [hne]

/-- C8 witness: a non-empty backlight device name and url opener pass
through unchanged. -/
theorem construct_empty_string_defaults_witness :
    Widget.construct cenvOk 0 (.Backlight "amdgpu_bl0" 24 600) =
      (if cenvOk.backlight_ok "amdgpu_bl0" then
        some (.Backlight "amdgpu_bl0" 24 600) else none) ∧
    Widget.construct cenvOk 0 (.Launcher 32 1200 "a" "t" "firefox ") =
      some (.Launcher 32 1200 "a" "t" "firefox ") :=
  ⟨(construct_empty_string_defaults cenvOk 0 24 600 "a" "t" "firefox " "amdgpu_bl0").2.1
      (by decide),
    (construct_empty_string_defaults cenvOk 0 32 1200 "a" "t" "firefox " "amdgpu_bl0").2.2.2
      (by decide)⟩

/-- A pending notification whose `Percentage` re-read fails at the
transport (the D-Bus send errors mid-run). -/
def failedPercentageNotif : WaitNotification := ⟨.sendFail, .value 1⟩

/-- C2 counterexample: a `wait` call on an already-constructed gauge
with one pending notification whose `Percentage` read fails does crash —
the loop body's `.unwrap()` panics (modelled as `none`), so there is no
post-call state at all, let alone one preserving `value()`/`color()`. -/
theorem wait_panics_on_failed_read :
    UpowerBattery.wait [failedPercentageNotif] waitState0 = none := rfl

/-- C2 (amended): a refresh read failure is not recoverable — whenever
any drained notification's reads fail, the whole `wait` call panics
(`none`); value persistence holds only for calls whose reads all
succeed. -/
theorem wait_crashes_when_read_fails (notifs : List WaitNotification)
    (s : WaitState) (h : ∃ n ∈ notifs, n.readsOk = false) :
    UpowerBattery.wait notifs s = none := by
  induction notifs generalizing s with
  | nil => simp at h
  | cons n ns ih =>
    rw [UpowerBattery.wait]
    obtain ⟨m, hm, hfail⟩ := h
    rcases List.mem_cons.mp hm with rfl | hmem
    · have hstep : UpowerBattery.waitStep s m = none := by
        obtain ⟨pr, sr⟩ := m
        simp only [UpowerBattery.waitStep]
        cases pr <;> cases sr <;> simp_all [WaitNotification.readsOk]
      rw [hstep]
    · cases hstep : UpowerBattery.waitStep s n
      · rfl
      · exact ih _ ⟨m, hmem, hfail⟩

/-- C2 witness for the amended claim: even after a successful first
notification, a later failing read panics the call. -/
theorem wait_crashes_when_read_fails_witness :
    UpowerBattery.wait [⟨.value 42, .value 1⟩, failedPercentageNotif]
      waitState0 = none :=
  wait_crashes_when_read_fails _ waitState0
    ⟨failedPercentageNotif, by simp, rfl⟩

/-- C6: on every `wait(ctx)` call whose reads succeed, each pending
notification is drained through the loop body — both `capacity` and
`state` are updated to the values read (the post-state carries the last
notification's readings), the shared dirty flag is set, and one
`Cmd::Draw` is enqueued per notification — and after the drain loop
exactly one descriptor, the watch fd with `POLLIN` interest, is appended
to `ctx`, regardless of how many notifications were drained. -/
theorem wait_drains_updates_and_registers (s : WaitState)
    (notifs : List WaitNotification)
    (h : ∀ n ∈ notifs, n.readsOk = true) :
    ∃ s1, UpowerBattery.wait notifs s = some s1 ∧
      s1.battery.watch_fd = s.battery.watch_fd ∧
      s1.fds = s.fds ++ [⟨s.battery.watch_fd, .POLLIN⟩] ∧
      s1.commands = s.commands ++ List.replicate notifs.length Cmd.Draw ∧
      (notifs = [] → s1.battery = s.battery ∧ s1.dirty = s.dirty) ∧
      (notifs ≠ [] → s1.dirty = true) ∧
      (∀ q c, notifs.getLast? = some ⟨.value q, .value c⟩ →
        s1.battery.capacity = q ∧ s1.battery.state = stateOfCode c) := by
  induction notifs generalizing s with
  | nil =>
    refine ⟨_, rfl, rfl, rfl, by simp, fun _ => ⟨rfl, rfl⟩, fun hne => absurd rfl hne,
      fun q c hlast => by simp at hlast⟩
  | cons n ns ih =>
    obtain ⟨pr, sr⟩ := n
    have hok : WaitNotification.readsOk ⟨pr, sr⟩ = true := h _ (List.mem_cons_self _ _)
    cases pr with
    | sendFail => simp [WaitNotification.readsOk] at hok
    | noValue => simp [WaitNotification.readsOk] at hok
    | value q0 =>
      cases sr with
      | sendFail => simp [WaitNotification.readsOk] at hok
      | noValue => simp [WaitNotification.readsOk] at hok
      | value c0 =>
        set s' : WaitState :=
          { battery := { s.battery with state := stateOfCode c0, capacity := q0 },
            dirty := true,
            commands := s.commands ++ [Cmd.Draw],
            fds := s.fds } with hs'
        obtain ⟨s1, hwait, hfd, hfds, hcmds, hnil, hne, hlast⟩ :=
          ih s' (fun m hm => h m (List.mem_cons_of_mem _ hm))
        have hstep : UpowerBattery.wait (⟨.value q0, .value c0⟩ :: ns) s =
            UpowerBattery.wait ns s' := by
          rw [UpowerBattery.wait]
          rfl
        refine ⟨s1, hstep ▸ hwait, hfd, ?_, ?_, ?_, ?_, ?_⟩
        · rw [hfds]
        · rw [hcmds, hs']
          simp [List.replicate_succ, List.append_assoc]
        · intro hcontra
          exact absurd hcontra (by simp)
        · intro _
          cases hns : ns with
          | nil =>
            subst hns
            have := (hnil rfl).2
            rw [this]
          | cons m ms =>
            subst hns
            exact hne (by simp)
        · intro q c hl
          cases hns : ns with
          | nil =>
            subst hns
            simp only [List.getLast?_singleton, Option.some.injEq] at hl
            obtain ⟨b_eq, -⟩ := hnil rfl
            rw [b_eq, hs']
            cases hl
            exact ⟨rfl, rfl⟩
          | cons m ms =>
            subst hns
            refine hlast q c ?_
            rw [← hl, List.getLast?_cons_cons]

/-- C6 witness: draining one notification (percentage 42, state code 2)
succeeds and yields a post-state. -/
theorem wait_drains_updates_and_registers_witness :
    (UpowerBattery.wait [⟨.value 42, .value 2⟩] waitState0).isSome = true := by
  obtain ⟨s1, h1, -⟩ := wait_drains_updates_and_registers waitState0
    [⟨(.value 42 : PropRead ℚ), .value 2⟩] (by decide)
  rw [h1]
  rfl

/-- A percentage read is in the documented UPower range: either it is
not a successful read, or its value lies in [0, 100]. -/
def PropRead.inPercentRange : PropRead ℚ → Bool
  | .value q => decide (0 ≤ q ∧ q ≤ 100)
  | _ => true

/-- A successful drain step stores exactly the percentage it read. -/
theorem waitStep_capacity_source (s : WaitState) (n : WaitNotification)
    (s1 : WaitState) (h : UpowerBattery.waitStep s n = some s1) :
    n.percentage_read = .value s1.battery.capacity := by
  obtain ⟨pr, sr⟩ := n
  cases pr with
  | sendFail => simp [UpowerBattery.waitStep] at h
  | noValue => simp [UpowerBattery.waitStep] at h
  | value q =>
    cases sr with
    | sendFail => simp [UpowerBattery.waitStep] at h
    | noValue => simp [UpowerBattery.waitStep] at h
    | value c =>
      simp only [UpowerBattery.waitStep, Option.some.injEq] at h
      subst h
      rfl

/-- Across a whole `wait` call, the capacity either is untouched or is
the value of one of the drained notifications' percentage reads. -/
theorem wait_capacity_source (notifs : List WaitNotification)
    (s s1 : WaitState) (h : UpowerBattery.wait notifs s = some s1) :
    s1.battery.capacity = s.battery.capacity ∨
      ∃ n ∈ notifs, n.percentage_read = .value s1.battery.capacity := by
  induction notifs generalizing s with
  | nil =>
    rw [UpowerBattery.wait] at h
    left
    cases h
    rfl
  | cons n ns ih =>
    rw [UpowerBattery.wait] at h
    cases hstep : UpowerBattery.waitStep s n with
    | none => rw [hstep] at h; exact absurd h (by simp)
    | some s' =>
      rw [hstep] at h
      rcases ih s' h with heq | ⟨m, hm, hv⟩
      · right
        refine ⟨n, List.mem_cons_self _ _, ?_⟩
        rw [heq]
        exact waitStep_capacity_source s n s' hstep
      · exact Or.inr ⟨m, List.mem_cons_of_mem _ hm, hv⟩

/-- Battery gauge states reachable through construction and refreshes
whose successful percentage reads all lie in [0, 100] (the documented
UPower range; the code itself never clamps). -/
inductive ReachableInRange : UpowerBattery → Prop where
  | constructed (env : DbusEnv) (d : String) (b : UpowerBattery)
      (henv : env.percentage_read.inPercentRange = true)
      (h : UpowerBattery.from_device env d = .ok b) : ReachableInRange b
  | refreshed (s s1 : WaitState) (notifs : List WaitNotification)
      (hb : ReachableInRange s.battery)
      (hn : ∀ n ∈ notifs, n.percentage_read.inPercentRange = true)
      (h : UpowerBattery.wait notifs s = some s1) : ReachableInRange s1.battery

/-- A D-Bus environment whose `Percentage` property reads 200 — outside
the documented range; every probe step succeeds. -/
def envOverfull : DbusEnv := ⟨true, true, .value 2, .value 200, .value 1, [7]⟩

/-- The gauge produced by a successful probe against `envOverfull`. -/
def batteryOverfull : UpowerBattery :=
  ⟨"/org/freedesktop/UPower/devices/battery_BAT0", .Charging, 200, 7⟩

/-- C9 counterexample: a gauge constructed from a (well-formed, class-2,
single-fd) device whose `Percentage` property reads 200 is reachable,
and its `value()` is 2, outside [0, 1] — the code stores the reading
unclamped. -/
theorem battery_value_can_exceed_one :
    UpowerBattery.from_device envOverfull "BAT0" = .ok batteryOverfull ∧
    UpowerBattery.value batteryOverfull = 2 ∧
    ¬ (UpowerBattery.value batteryOverfull ≤ 1) := by
  refine ⟨rfl, ?_, ?_⟩ <;> norm_num [UpowerBattery.value, batteryOverfull]

/-- C9 (amended): `value()` lies in [0, 1] for every state reachable
through construction and refreshes in which every successfully read
percentage lies in the documented range [0, 100]; the code performs no
clamping of its own. -/
theorem battery_value_in_unit_interval (b : UpowerBattery)
    (h : ReachableInRange b) : 0 ≤ b.value ∧ b.value ≤ 1 := by
  have hcap : 0 ≤ b.capacity ∧ b.capacity ≤ 100 := by
    induction h with
    | constructed env d b henv hok =>
      obtain ⟨hpct, -⟩ := from_device_ok_fields env d b hok
      rw [hpct] at henv
      simpa [PropRead.inPercentRange] using henv
    | refreshed s s1 notifs hb hn hw ih =>
      rcases wait_capacity_source notifs s s1 hw with heq | ⟨n, hn_mem, hv⟩
      · rw [heq]
        exact ih
      · have := hn n hn_mem
        rw [hv] at this
        simpa [PropRead.inPercentRange] using this
  unfold UpowerBattery.value
  constructor
  · exact div_nonneg hcap.1 (by norm_num)
  · rw [div_le_one (by norm_num : (0 : ℚ) < 100)]
    exact hcap.2

/-- C9 witness: the gauge probed from `envAllOk` (percentage 50) is
reachable with in-range reads, and its value lies in [0, 1]. -/
theorem battery_value_in_unit_interval_witness :
    0 ≤ UpowerBattery.value batteryOk ∧ UpowerBattery.value batteryOk ≤ 1 :=
  battery_value_in_unit_interval batteryOk
    (ReachableInRange.constructed envAllOk "BAT0" batteryOk (by decide) rfl)
